import Mathlib

/-!
Verification development for the connector/credential admin console
(web/src/app/admin/connectors/notion/page.tsx, .../slack/page.tsx with the
Google Drive page appended, web/src/app/admin/bot/page.tsx, and the
source-metadata and source-selector components).

Each definition is a shallow embedding of one piece of the TypeScript
source; doc comments name the file and lines it is translated from.
JavaScript runtime behaviour that matters here is made explicit:
truthiness of an optional string property, property access on `undefined`
raising a TypeError, `Array.prototype.slice`, stable `Array.prototype.sort`,
and `setTimeout`.
-/

namespace OnyxAdmin

/-- Popup notification as rendered by the Popup component:
a message plus a type tag ("success" or "error"). -/
structure PopupSpec where
  message : String
  type : String
deriving DecidableEq

/-- Credential record (lib/types): identity plus the opaque
`credential_json` payload, modelled as a finite string-to-string object. -/
structure Credential where
  id : Nat
  credential_json : List (String × String)
deriving DecidableEq

/-- Connector record: the fields the admin pages read
(`id`, `source`, `credential_ids`). -/
structure Connector where
  id : Nat
  source : String
  credential_ids : List Nat
deriving DecidableEq

/-- ConnectorIndexingStatus projection: the pages only read its
`connector` field. -/
structure ConnectorIndexingStatus where
  connector : Connector
deriving DecidableEq

/-- Property lookup on a JS object: value of `key` if present. -/
def lookupKey (json : List (String × String)) (key : String) : Option String :=
  (json.find? (fun p => p.1 = key)).map (fun p => p.2)

/-- JS truthiness of an optional string property: `undefined` and the
empty string are falsy, every other string is truthy. -/
def jsTruthy : Option String → Bool
  | none => false
  | some s => s ≠ ""

/-- Credential selection as written identically on the three pages, e.g.
notion/page.tsx lines 62 to 64:
`credentialsData.filter((credential) => credential.credential_json?.notion_integration_token)[0]`.
The filter predicate is JS truthiness of the marker property, and `[0]`
takes the head of the filtered list (or `undefined`). -/
def selectCredentialForSource (credentials : List Credential) (markerKey : String) :
    Option Credential :=
  (credentials.filter (fun c => jsTruthy (lookupKey c.credential_json markerKey))).head?

/-- Connector selection as written on the three pages, e.g. slack/page.tsx
lines 56 to 60: filter the statuses whose `connector.source` equals the
page source. -/
def selectConnectorsForSource (statuses : List ConnectorIndexingStatus) (source : String) :
    List ConnectorIndexingStatus :=
  statuses.filter (fun s => s.connector.source = source)

/-! ### Bot-config table (web/src/app/admin/bot/page.tsx) -/

/-- `channel_config` field of a SlackBotConfig. -/
structure ChannelConfig where
  channel_names : List String
  respond_team_member_list : Option (List String)
  answer_filters : Option (List String)
  respond_tag_only : Option Bool
deriving DecidableEq

/-- SlackBotConfig record; `document_sets` is kept as the list of names,
the only part the table reads. -/
structure SlackBotConfig where
  id : Nat
  channel_config : ChannelConfig
  document_sets : List String
deriving DecidableEq

/-- `numToDisplay` constant, bot/page.tsx line 18. -/
def numToDisplay : Nat := 50

/-- `Array.prototype.slice(start, stop)`: the elements at indices
`start` to `stop - 1`. -/
def jsSlice {α : Type} (l : List α) (start stop : Nat) : List α :=
  (l.drop start).take (stop - start)

/-- Sort applied in SlackBotConfigsTable, bot/page.tsx lines 32 to 40:
`slackBotConfigs.sort((a, b) => a.id < b.id ? -1 : a.id > b.id ? 1 : 0)`.
`Array.prototype.sort` is stable (ECMA-262), so this is the stable sort
under the non-strict order `a.id ≤ b.id` induced by the comparator,
modelled as stable insertion sort. -/
def sortById (configs : List SlackBotConfig) : List SlackBotConfig :=
  configs.insertionSort (fun a b => a.id ≤ b.id)

/-- Page slice of the table, bot/page.tsx lines 76 to 77:
`slackBotConfigs.slice((page - 1) * numToDisplay, page * numToDisplay)`. -/
def pageSlice (configs : List SlackBotConfig) (page : Nat) : List SlackBotConfig :=
  jsSlice configs ((page - 1) * numToDisplay) (page * numToDisplay)

/-- Rows displayed for a 1-indexed page: the sort is applied to the
collection before the slice (the sort call precedes the render). -/
def displayedConfigs (configs : List SlackBotConfig) (page : Nat) : List SlackBotConfig :=
  pageSlice (sortById configs) page

/-- Total page count, bot/page.tsx line 160:
`Math.ceil(slackBotConfigs.length / numToDisplay)`. -/
def totalPages (configs : List SlackBotConfig) : Nat :=
  ⌈(configs.length : ℚ) / (numToDisplay : ℚ)⌉₊

/-! ### Mutation handlers -/

/-- Outcome of one click handler: the popup it set (if any), the
credential ids it DELETEd, and the SWR cache keys it invalidated. -/
structure MutationRun where
  popup : Option PopupSpec
  deletes : List Nat
  mutates : List String
deriving DecidableEq

/-- Credential-delete onClick of the Notion page, notion/page.tsx
lines 82 to 93: if `notionConnectorIndexingStatuses.length > 0` it sets
the error popup and returns; otherwise it issues
`deleteCredential(notionCredential.id)` and mutates the credential key.
`notionConnectorIndexingStatuses` is the source filter of the statuses
computed in Main (lines 58 to 61). -/
def notionDeleteCredentialClick (notionCredential : Credential)
    (connectorIndexingStatuses : List ConnectorIndexingStatus) : MutationRun :=
  let notionConnectorIndexingStatuses :=
    selectConnectorsForSource connectorIndexingStatuses "notion"
  if notionConnectorIndexingStatuses.length > 0 then
    { popup := some { message := "Must delete all connectors before deleting credentials",
                      type := "error" },
      deletes := [], mutates := [] }
  else
    { popup := none,
      deletes := [notionCredential.id],
      mutates := ["/api/manage/credential"] }

/-- Credential-delete onClick of the Slack page, slack/page.tsx lines 79
to 83: `deleteCredential(slackCredential.id)` followed by
`mutate("/api/manage/credential")`, with no guard of any kind. -/
def slackDeleteCredentialClick (slackCredential : Credential) : MutationRun :=
  { popup := none,
    deletes := [slackCredential.id],
    mutates := ["/api/manage/credential"] }

/-! ### Connector-creation affordances (rendered state) -/

/-- Whether the Notion page renders the connector-creation ConnectorForm,
notion/page.tsx line 177: `notionCredential &&
notionConnectorIndexingStatuses.length === 0 && (...)`. -/
def notionShowsConnectorForm (credentialsData : List Credential)
    (connectorIndexingStatuses : List ConnectorIndexingStatus) : Bool :=
  (selectCredentialForSource credentialsData "notion_integration_token").isSome
    && (selectConnectorsForSource connectorIndexingStatuses "notion").length == 0

/-- Whether the Slack page renders the "Connect to a New Workspace"
ConnectorForm, slack/page.tsx lines 170 to 197: the surrounding JSX has
no condition, so the form is rendered in every loaded state. -/
def slackShowsConnectorForm (credentialsData : List Credential)
    (connectorIndexingStatuses : List ConnectorIndexingStatus) : Bool :=
  true

/-- Whether the Google Drive page renders the "Add" connector-creation
button (second part of slack/page.tsx, Step 3): the button branch is
taken when `googleDriveConnectorIndexingStatus` (element 0 of the
source-filtered statuses) is `undefined`; `googleDriveCredential` does
not occur in the condition. -/
def googleDriveShowsCreateConnectorButton (credentialsData : List Credential)
    (connectorIndexingStatuses : List ConnectorIndexingStatus) : Bool :=
  ((selectConnectorsForSource connectorIndexingStatuses "google_drive").head?).isNone

/-! ### Link-credential call paths -/

/-- JS runtime failure relevant here: reading a property of `undefined`. -/
inductive JsError where
  | typeError
deriving DecidableEq

/-- Outcome of a handler that may link: the PUT link calls it issued as
(connectorId, credentialId) pairs, and the cache keys it invalidated. -/
structure LinkRun where
  links : List (Nat × Nat)
  mutates : List String
deriving DecidableEq

/-- onCredentialLink of the Slack page, slack/page.tsx lines 159 to 164:
`if (slackCredential) { await linkCredential(connectorId,
slackCredential.id); mutate(indexing-status key) }`. -/
def slackOnCredentialLink (connectorId : Nat) (slackCredential : Option Credential) :
    LinkRun :=
  match slackCredential with
  | some cred =>
    { links := [(connectorId, cred.id)],
      mutates := ["/api/manage/admin/connector/indexing-status"] }
  | none => { links := [], mutates := [] }

/-- onCredentialLink of the Notion page, notion/page.tsx lines 163 to
168: same guarded shape as the Slack one. -/
def notionOnCredentialLink (connectorId : Nat) (notionCredential : Option Credential) :
    LinkRun :=
  match notionCredential with
  | some cred =>
    { links := [(connectorId, cred.id)],
      mutates := ["/api/manage/admin/connector/indexing-status"] }
  | none => { links := [], mutates := [] }

/-- ConnectorForm onSubmit of the Slack page, slack/page.tsx lines 190 to
195: `if (isSuccess && responseJson) { await
linkCredential(responseJson.id, slackCredential.id); mutate(...) }`.
There is no presence check on `slackCredential`; when it is `undefined`
the property access `slackCredential.id` raises a TypeError before any
network call is made. -/
def slackConnectorFormOnSubmit (isSuccess : Bool) (responseJsonId : Option Nat)
    (slackCredential : Option Credential) : Except JsError LinkRun :=
  match isSuccess, responseJsonId with
  | true, some connectorId =>
    match slackCredential with
    | some cred =>
      Except.ok { links := [(connectorId, cred.id)],
                  mutates := ["/api/manage/admin/connector/indexing-status"] }
    | none => Except.error JsError.typeError
  | _, _ => Except.ok { links := [], mutates := [] }

/-! ### HTTP responses and error popups -/

/-- Fetch response as the handlers observe it: numeric status plus the
body text (read by `response.text()`). -/
structure JsResponse where
  status : Nat
  body : String
deriving DecidableEq

/-- `response.ok`: status in the 2xx range (ECMA fetch spec, 200 to 299). -/
def JsResponse.ok (r : JsResponse) : Bool :=
  200 ≤ r.status && r.status ≤ 299

/-- Substring test over character lists: the needle occurs contiguously
somewhere in the haystack. -/
def listContains (haystack needle : List Char) : Bool :=
  (List.range (haystack.length + 1)).any (fun i => needle.isPrefixOf (haystack.drop i))

/-- Popup set by the Google Drive AppCredentialUpload button, second part
of slack/page.tsx (upload onClick): success message, or
`Failed to upload app credentials - ` followed by the status. -/
def appCredentialUploadPopup (response : JsResponse) : PopupSpec :=
  if response.ok then
    { message := "Successfully uploaded app credentials", type := "success" }
  else
    { message := "Failed to upload app credentials - " ++ toString response.status,
      type := "error" }

/-- Error message of the Google Drive connector-creation failure popup:
`Failed to create connector - ` followed by the status. -/
def createConnectorErrorMessage (response : JsResponse) : String :=
  "Failed to create connector - " ++ toString response.status

/-- Error message of the Google Drive link failure popup:
`Failed to link connector to credential - ` followed by the status. -/
def linkConnectorErrorMessage (response : JsResponse) : String :=
  "Failed to link connector to credential - " ++ toString response.status

/-- Popup set by the bot-config delete onClick, bot/page.tsx lines 132 to
147: on success a success message; on failure the message is built from
`await response.text()`, the response body, not the status code. -/
def botDeleteConfigPopup (config : SlackBotConfig) (response : JsResponse) : PopupSpec :=
  if response.ok then
    { message := "Slack bot config \"" ++ toString config.id ++ "\" deleted",
      type := "success" }
  else
    { message := "Failed to delete Slack bot config - " ++ response.body,
      type := "error" }

/-- The Google Drive "Add" button onClick (second part of slack/page.tsx,
Step 3): POST the connector; on a non-ok response set the failure popup
and return; then PUT the link; on a non-ok response set the failure popup
and return; otherwise set the success popup and mutate the
indexing-status key. Modelled as a function of the two responses. -/
def gdriveAddConnectorClick (createResponse linkResponse : JsResponse) : MutationRun :=
  if createResponse.ok = false then
    { popup := some { message := createConnectorErrorMessage createResponse,
                      type := "error" },
      deletes := [], mutates := [] }
  else if linkResponse.ok = false then
    { popup := some { message := linkConnectorErrorMessage linkResponse,
                      type := "error" },
      deletes := [], mutates := [] }
  else
    { popup := some { message := "Successfully created connector!", type := "success" },
      deletes := [],
      mutates := ["/api/admin/connector/indexing-status"] }

/-- Outcome of the bot-config delete onClick, bot/page.tsx lines 132 to
149: the popup depends on the response, and `refresh()` is called
unconditionally after the if/else. -/
structure BotDeleteRun where
  popup : PopupSpec
  refreshCalled : Bool
deriving DecidableEq

/-- Bot-config delete onClick, bot/page.tsx lines 132 to 149. -/
def botDeleteConfigClick (config : SlackBotConfig) (response : JsResponse) : BotDeleteRun :=
  { popup := botDeleteConfigPopup config response, refreshCalled := true }

/-! ### Expiring popup (setPopupWithExpiration) -/

/-- State set by one call of `setPopupWithExpiration`, second part of
slack/page.tsx lines 340 to 345: the popup value, plus the pending
`setTimeout` delays (in ms) whose callbacks clear the popup. -/
structure PopupTimerState where
  popup : Option PopupSpec
  pendingClearDelaysMs : List Nat
deriving DecidableEq

/-- `setPopupWithExpiration(popupSpec)`: `setPopup(popupSpec)` then
`setTimeout(() => setPopup(null), 4000)`. -/
def setPopupWithExpiration (popupSpec : Option PopupSpec) : PopupTimerState :=
  { popup := popupSpec, pendingClearDelaysMs := [4000] }

/-- Popup visible `elapsedMs` milliseconds after the state was set, with
no further interaction: every timer whose delay has elapsed has fired,
and each fired callback sets the popup to null. -/
def popupAfter (s : PopupTimerState) (elapsedMs : Nat) : Option PopupSpec :=
  if s.pendingClearDelaysMs.any (fun d => d ≤ elapsedMs) then none else s.popup

/-! ### getSourceMetadata (components/source.tsx) -/

/-- SourceMetadata record; the icon component is identified by name. -/
structure SourceMetadata where
  icon : String
  displayName : String
  adminPageLink : String
deriving DecidableEq

/-- `getSourceMetadata`, components/source.tsx: a switch over the source
type with cases for web, slack, google_drive and github, whose default
branch throws `Error("Invalid source type")`. Throwing is modelled as
`Except.error` carrying the error message. -/
def getSourceMetadata (sourceType : String) : Except String SourceMetadata :=
  if sourceType = "web" then
    Except.ok { icon := "GlobeIcon", displayName := "Web",
                adminPageLink := "/admin/connectors/web" }
  else if sourceType = "slack" then
    Except.ok { icon := "SlackIcon", displayName := "Slack",
                adminPageLink := "/admin/connectors/slack" }
  else if sourceType = "google_drive" then
    Except.ok { icon := "GoogleDriveIcon", displayName := "Google Drive",
                adminPageLink := "/admin/connectors/google-drive" }
  else if sourceType = "github" then
    Except.ok { icon := "GithubIcon", displayName := "Github PRs",
                adminPageLink := "/admin/connectors/github" }
  else
    Except.error "Invalid source type"

/-- `getSourceIcon`: `getSourceMetadata(sourceType).icon(...)` — the
throw from `getSourceMetadata` propagates. -/
def getSourceIcon (sourceType : String) : Except String String :=
  (getSourceMetadata sourceType).map (fun m => m.icon)

/-- `getSourceDisplayName`: `getSourceMetadata(sourceType).displayName` —
the throw from `getSourceMetadata` propagates. -/
def getSourceDisplayName (sourceType : String) : Except String String :=
  (getSourceMetadata sourceType).map (fun m => m.displayName)

/-- Source filter list offered by the SourceSelector component
(internal names, in its display order). -/
def sourceSelectorInternalNames : List String :=
  ["google_drive", "slack", "confluence", "github", "web"]

/-! ### Concrete records used by counterexamples and witnesses -/

/-- Notion credential with id 7 holding a (truthy) integration token. -/
def notionCred7 : Credential :=
  { id := 7, credential_json := [("notion_integration_token", "secret-token")] }

/-- Notion-source connector with id 3 that links no credential at all. -/
def notionStatus3 : ConnectorIndexingStatus :=
  { connector := { id := 3, source := "notion", credential_ids := [] } }

/-- Slack credential whose `slack_bot_token` property is present but
empty, hence falsy in JS. -/
def slackCredEmptyToken : Credential :=
  { id := 7, credential_json := [("slack_bot_token", "")] }

/-- A bot config with a given id and empty payload. -/
def mkBotConfig (i : Nat) : SlackBotConfig :=
  { id := i,
    channel_config :=
      { channel_names := [], respond_team_member_list := none,
        answer_filters := none, respond_tag_only := none },
    document_sets := [] }

/-- 120 bot configs with ids 0 to 119, in id order. -/
def configs120 : List SlackBotConfig :=
  (List.range 120).map mkBotConfig

/-- Three bot configs: two sharing id 1 (distinguished by document set)
after one with id 2, to exercise sorting and stability. -/
def demoConfigs : List SlackBotConfig :=
  [ { mkBotConfig 2 with document_sets := ["c"] },
    { mkBotConfig 1 with document_sets := ["a"] },
    { mkBotConfig 1 with document_sets := ["b"] } ]

/-- Slack credential with id 9 holding a truthy bot token. -/
def slackCredGood : Credential :=
  { id := 9, credential_json := [("slack_bot_token", "xoxb-x")] }

/-! ### Helper lemmas -/

/-- Filter-then-head equals first-match: the JS idiom `filter(p)[0]`
returns the first element of the list satisfying `p`, in original order. -/
theorem filter_head_eq_find {α : Type} (p : α → Bool) (l : List α) :
    (l.filter p).head? = l.find? p := by
  induction l with
  | nil => rfl
  | cons a l ih =>
    by_cases h : p a
    · simp [List.filter_cons, List.find?_cons, h]
    · simp only [Bool.not_eq_true] at h
      simp [List.filter_cons, List.find?_cons, h, ih]

/-- The rational ceiling of `n / 50` computes as `(n + 49) / 50` in ℕ. -/
theorem ceil_div_fifty (n : Nat) : ⌈(n : ℚ) / 50⌉₊ = (n + 49) / 50 := by
  have h50 : (0 : ℚ) < 50 := by norm_num
  rcases Nat.eq_zero_or_pos n with h0 | h0
  · subst h0; simp
  have hq := Nat.div_add_mod (n + 49) 50
  have hr : (n + 49) % 50 < 50 := Nat.mod_lt _ (by norm_num)
  set m := (n + 49) / 50 with hm
  have hm1 : 1 ≤ m := by omega
  rw [Nat.ceil_eq_iff (by omega)]
  constructor
  · rw [lt_div_iff₀ h50]
    have : (m - 1) * 50 < n := by omega
    calc ((m - 1 : Nat) : ℚ) * 50 = (((m - 1) * 50 : Nat) : ℚ) := by push_cast; ring
    _ < (n : ℚ) := by exact_mod_cast this
  · rw [div_le_iff₀ h50]
    have : n ≤ m * 50 := by omega
    calc (n : ℚ) ≤ ((m * 50 : Nat) : ℚ) := by exact_mod_cast this
    _ = (m : ℚ) * 50 := by push_cast; ring

/-! ### C1: guarded credential delete -/

/-- C1 counterexample: credential 7 and one Notion connector (id 3) whose
`credential_ids` is empty. No connector references credential 7, so the
claim requires exactly one DELETE for it; the Notion delete handler
instead fires the guard popup and issues no DELETE, because its guard
tests only whether any Notion-source status exists. -/
theorem C1_counterexample :
    (∀ s ∈ [notionStatus3], (7 : Nat) ∉ s.connector.credential_ids) ∧
    notionDeleteCredentialClick notionCred7 [notionStatus3]
      = { popup := some { message := "Must delete all connectors before deleting credentials",
                          type := "error" },
          deletes := [], mutates := [] } ∧
    (notionDeleteCredentialClick notionCred7 [notionStatus3]).deletes ≠ [notionCred7.id] := by
  decide

/-- C1 (amended): the Notion credential-delete guard fires exactly when at
least one Notion-source connector status exists, regardless of which
credential ids any connector links; the DELETE (exactly one, for the
credential) is issued exactly when no Notion-source status exists, and
never together with the guard popup. The Slack page credential delete is
unguarded: it always issues exactly one DELETE. -/
theorem C1_amended (cred : Credential) (statuses : List ConnectorIndexingStatus) :
    ((notionDeleteCredentialClick cred statuses).deletes = [cred.id]
        ↔ ∀ s ∈ statuses, s.connector.source ≠ "notion") ∧
    ((notionDeleteCredentialClick cred statuses).popup.isSome = true
        ↔ ∃ s ∈ statuses, s.connector.source = "notion") ∧
    ((notionDeleteCredentialClick cred statuses).popup.isSome = true →
        (notionDeleteCredentialClick cred statuses).deletes = []) ∧
    (slackDeleteCredentialClick cred).deletes = [cred.id] := by
  have hslack : (slackDeleteCredentialClick cred).deletes = [cred.id] := rfl
  by_cases h : selectConnectorsForSource statuses "notion" = []
  · have h2 := h
    unfold selectConnectorsForSource at h2
    have hall : ∀ s ∈ statuses, s.connector.source ≠ "notion" := by
      intro s hs
      have := List.filter_eq_nil_iff.mp h2 s hs
      simpa using this
    have hrun : notionDeleteCredentialClick cred statuses
        = { popup := none, deletes := [cred.id], mutates := ["/api/manage/credential"] } := by
      unfold notionDeleteCredentialClick
      rw [h]
      rfl
    rw [hrun]
    refine ⟨⟨fun _ => hall, fun _ => rfl⟩, ?_, ?_, hslack⟩
    · constructor
      · intro hcontra; simp at hcontra
      · rintro ⟨s, hs, hsrc⟩
        exact absurd hsrc (hall s hs)
    · intro hcontra; simp at hcontra
  · have h2 := h
    unfold selectConnectorsForSource at h2
    have hex : ∃ s ∈ statuses, s.connector.source = "notion" := by
      obtain ⟨s, hs⟩ := List.exists_mem_of_ne_nil _ h2
      have hm := List.mem_filter.mp hs
      exact ⟨s, hm.1, by simpa using hm.2⟩
    have hlen : (selectConnectorsForSource statuses "notion").length > 0 :=
      List.length_pos.mpr h
    have hrun : notionDeleteCredentialClick cred statuses
        = { popup := some { message := "Must delete all connectors before deleting credentials",
                            type := "error" },
            deletes := [], mutates := [] } := by
      unfold notionDeleteCredentialClick
      rw [if_pos hlen]
    rw [hrun]
    refine ⟨?_, ⟨fun _ => hex, fun _ => rfl⟩, fun _ => rfl, hslack⟩
    constructor
    · intro hcontra; simp at hcontra
    · intro hall
      obtain ⟨s, hs, hsrc⟩ := hex
      exact absurd hsrc (hall s hs)

/-- C1 amended witness: the amended theorem at credential 7 and the
single unlinked Notion connector status. -/
theorem C1_amended_witness :
    ((notionDeleteCredentialClick notionCred7 [notionStatus3]).deletes = [notionCred7.id]
        ↔ ∀ s ∈ [notionStatus3], s.connector.source ≠ "notion") ∧
    ((notionDeleteCredentialClick notionCred7 [notionStatus3]).popup.isSome = true
        ↔ ∃ s ∈ [notionStatus3], s.connector.source = "notion") ∧
    ((notionDeleteCredentialClick notionCred7 [notionStatus3]).popup.isSome = true →
        (notionDeleteCredentialClick notionCred7 [notionStatus3]).deletes = []) ∧
    (slackDeleteCredentialClick notionCred7).deletes = [notionCred7.id] :=
  C1_amended notionCred7 [notionStatus3]

/-! ### C2: connector creation gated on credential presence -/

/-- C2 counterexample: in the loaded Slack page state with no credentials
and no connectors, no Slack credential is selected, yet the
"Connect to a New Workspace" connector-creation form is rendered. -/
theorem C2_counterexample :
    selectCredentialForSource [] "slack_bot_token" = none ∧
    slackShowsConnectorForm [] [] = true := by
  decide

/-- C2 (amended): only the Notion page gates connector creation on an
existing credential (its form also requires that no Notion connector
exists yet). The Slack page renders its connector-creation form in every
loaded state, and the Google Drive create-connector button depends only
on the statuses, not on the credentials. -/
theorem C2_amended (credentialsData otherCredentials : List Credential)
    (connectorIndexingStatuses : List ConnectorIndexingStatus) :
    (notionShowsConnectorForm credentialsData connectorIndexingStatuses = true →
        (selectCredentialForSource credentialsData "notion_integration_token").isSome = true) ∧
    slackShowsConnectorForm credentialsData connectorIndexingStatuses = true ∧
    googleDriveShowsCreateConnectorButton credentialsData connectorIndexingStatuses
      = googleDriveShowsCreateConnectorButton otherCredentials connectorIndexingStatuses := by
  refine ⟨?_, rfl, rfl⟩
  intro h
  unfold notionShowsConnectorForm at h
  exact (Bool.and_eq_true _ _ |>.mp h).1

/-- C2 amended witness: the amended theorem at an empty credential list,
one unrelated credential list, and no statuses. -/
theorem C2_amended_witness :
    (notionShowsConnectorForm [] [] = true →
        (selectCredentialForSource [] "notion_integration_token").isSome = true) ∧
    slackShowsConnectorForm [] [] = true ∧
    googleDriveShowsCreateConnectorButton [] []
      = googleDriveShowsCreateConnectorButton [slackCredGood] [] :=
  C2_amended [] [slackCredGood] []

/-! ### C3: link calls only with an existing credential -/

/-- C3 counterexample: the Slack ConnectorForm onSubmit path after a
successful connector creation (connector id 3) with no Slack credential
selected. The handler performs no presence check: instead of a guarded
no-op it raises a TypeError on the property access, so this calling path
violates the stated caller-checks-first discipline. -/
theorem C3_counterexample :
    slackConnectorFormOnSubmit true (some 3) none = Except.error JsError.typeError ∧
    ∀ run : LinkRun, slackConnectorFormOnSubmit true (some 3) none ≠ Except.ok run := by
  refine ⟨rfl, ?_⟩
  intro run h
  simp [slackConnectorFormOnSubmit] at h

/-- C3 (amended): the onCredentialLink handlers of the Slack and Notion
pages check credential presence and issue no link call when it is
absent, and link with the selected credential id when present. The Slack
ConnectorForm onSubmit handler performs no such check: with an absent
credential it raises a TypeError before any network call, so no link
call is ever issued with an absent credential id, but not every calling
path guards first. Every link call an onSubmit run does issue carries
the id of a present credential. -/
theorem C3_amended (connectorId : Nat) (cred : Credential) :
    (slackOnCredentialLink connectorId none).links = [] ∧
    (notionOnCredentialLink connectorId none).links = [] ∧
    (slackOnCredentialLink connectorId (some cred)).links = [(connectorId, cred.id)] ∧
    (∀ (isSuccess : Bool) (responseJsonId : Option Nat) (credentialOpt : Option Credential)
        (run : LinkRun),
        slackConnectorFormOnSubmit isSuccess responseJsonId credentialOpt = Except.ok run →
        run.links ≠ [] →
        ∃ c connId, credentialOpt = some c ∧ run.links = [(connId, c.id)]) ∧
    (∀ responseId : Nat,
        slackConnectorFormOnSubmit true (some responseId) none
          = Except.error JsError.typeError) := by
  refine ⟨rfl, rfl, rfl, ?_, fun _ => rfl⟩
  intro isSuccess responseJsonId credentialOpt run h hne
  match isSuccess, responseJsonId, credentialOpt with
  | true, some connId, some c =>
    refine ⟨c, connId, rfl, ?_⟩
    simp only [slackConnectorFormOnSubmit] at h
    cases h
    rfl
  | true, some connId, none => simp [slackConnectorFormOnSubmit] at h
  | true, none, _ =>
    simp only [slackConnectorFormOnSubmit] at h
    cases h
    simp at hne
  | false, _, _ =>
    simp only [slackConnectorFormOnSubmit] at h
    cases h
    simp at hne

/-- C3 amended witness: the amended theorem at connector id 3 and the
Slack credential with id 9. -/
theorem C3_amended_witness :
    (slackOnCredentialLink 3 none).links = [] ∧
    (notionOnCredentialLink 3 none).links = [] ∧
    (slackOnCredentialLink 3 (some slackCredGood)).links = [(3, slackCredGood.id)] ∧
    (∀ (isSuccess : Bool) (responseJsonId : Option Nat) (credentialOpt : Option Credential)
        (run : LinkRun),
        slackConnectorFormOnSubmit isSuccess responseJsonId credentialOpt = Except.ok run →
        run.links ≠ [] →
        ∃ c connId, credentialOpt = some c ∧ run.links = [(connId, c.id)]) ∧
    (∀ responseId : Nat,
        slackConnectorFormOnSubmit true (some responseId) none
          = Except.error JsError.typeError) :=
  C3_amended 3 slackCredGood

/-! ### C4: credential selection -/

/-- C4 counterexample: a single credential whose `credential_json`
contains the marker key `slack_bot_token` with the empty string as
value. The claim requires this first (only) containing element to be
returned; the page filter tests JS truthiness, the empty string is
falsy, and the selection returns none. -/
theorem C4_counterexample :
    (lookupKey slackCredEmptyToken.credential_json "slack_bot_token").isSome = true ∧
    selectCredentialForSource [slackCredEmptyToken] "slack_bot_token" = none := by
  decide

/-- C4 (amended): selection returns the first element of the collection,
in its original order, whose marker property is truthy (present with a
non-empty value), and none exactly when no element has a truthy marker;
it is a deterministic function of the collection order alone. -/
theorem C4_amended (credentials : List Credential) (markerKey : String) :
    selectCredentialForSource credentials markerKey
      = credentials.find? (fun c => jsTruthy (lookupKey c.credential_json markerKey)) ∧
    (selectCredentialForSource credentials markerKey = none ↔
      ∀ c ∈ credentials, jsTruthy (lookupKey c.credential_json markerKey) = false) := by
  have hfind : selectCredentialForSource credentials markerKey
      = credentials.find? (fun c => jsTruthy (lookupKey c.credential_json markerKey)) :=
    filter_head_eq_find _ _
  refine ⟨hfind, ?_⟩
  rw [hfind, List.find?_eq_none]
  constructor
  · intro hnone c hc
    have := hnone c hc
    simpa using this
  · intro hall c hc
    simp [hall c hc]

/-- C4 amended witness: the amended theorem over the two-element
collection [empty-token credential, good credential]; the selection
skips the falsy first element and returns the second. -/
theorem C4_amended_witness :
    (selectCredentialForSource [slackCredEmptyToken, slackCredGood] "slack_bot_token"
      = List.find? (fun c => jsTruthy (lookupKey c.credential_json "slack_bot_token"))
          [slackCredEmptyToken, slackCredGood] ∧
    (selectCredentialForSource [slackCredEmptyToken, slackCredGood] "slack_bot_token" = none ↔
      ∀ c ∈ [slackCredEmptyToken, slackCredGood],
        jsTruthy (lookupKey c.credential_json "slack_bot_token") = false)) ∧
    selectCredentialForSource [slackCredEmptyToken, slackCredGood] "slack_bot_token"
      = some slackCredGood :=
  ⟨C4_amended [slackCredEmptyToken, slackCredGood] "slack_bot_token", by decide⟩

/-! ### C5: pagination -/

/-- C5: for every 1-indexed page, element `i` of the displayed slice is
element `(page - 1) * 50 + i` of the sorted list (both none when out of
range, so the slice is exactly offsets `(page-1)*50` to `page*50 - 1`),
the slice never exceeds the page size, and the total page count is the
ceiling of `length / 50` computed as `(length + 49) / 50`. -/
theorem C5_pagination (configs : List SlackBotConfig) (page : Nat) (h1 : 1 ≤ page) :
    (∀ i : Nat, i < numToDisplay →
      (displayedConfigs configs page)[i]? = (sortById configs)[(page - 1) * numToDisplay + i]?) ∧
    (displayedConfigs configs page).length ≤ numToDisplay ∧
    totalPages configs = (configs.length + numToDisplay - 1) / numToDisplay := by
  have hdiff : page * numToDisplay - (page - 1) * numToDisplay = numToDisplay := by
    unfold numToDisplay
    omega
  have hslice : displayedConfigs configs page
      = ((sortById configs).drop ((page - 1) * numToDisplay)).take numToDisplay := by
    unfold displayedConfigs pageSlice jsSlice
    rw [hdiff]
  refine ⟨?_, ?_, ?_⟩
  · intro i hi
    rw [hslice, List.getElem?_take_of_lt hi, List.getElem?_drop]
  · rw [hslice, List.length_take]
    exact Nat.min_le_left _ _
  · unfold totalPages numToDisplay
    exact ceil_div_fifty configs.length

/-- C5 witness: page 2 over the 120 configs with ids 0 to 119: the slice
is exactly the sorted elements at offsets 50 to 99, and there are 3
pages. -/
theorem C5_pagination_witness :
    (∀ i : Nat, i < numToDisplay →
      (displayedConfigs configs120 2)[i]? = (sortById configs120)[50 + i]?) ∧
    (displayedConfigs configs120 2).length ≤ numToDisplay ∧
    totalPages configs120 = 3 := by
  have h := C5_pagination configs120 2 (by decide)
  refine ⟨fun i hi => ?_, h.2.1, ?_⟩
  · have := h.1 i hi
    have harith : (2 - 1) * numToDisplay + i = 50 + i := by
      unfold numToDisplay
      omega
    rwa [harith] at this
  · rw [h.2.2]
    decide

/-! ### C6: sorting by id -/

/-- C6: the ordering applied before display is sorted by id ascending
(every earlier element has id at most every later one, so of two records
with distinct ids the smaller-id one comes first), is a permutation of
the input, and is stable: any id-homogeneous subsequence of the input
survives as a subsequence of the output, so records with equal ids keep
their relative order; as a pure function it is deterministic. -/
theorem C6_sort (configs : List SlackBotConfig) :
    (sortById configs).Pairwise (fun a b => a.id ≤ b.id) ∧
    (sortById configs).Perm configs ∧
    ∀ c : List SlackBotConfig, c.Sublist configs → (∀ a ∈ c, ∀ b ∈ c, a.id ≤ b.id) →
      c.Sublist (sortById configs) := by
  haveI : IsTotal SlackBotConfig (fun a b => a.id ≤ b.id) :=
    ⟨fun a b => Nat.le_total a.id b.id⟩
  haveI : IsTrans SlackBotConfig (fun a b => a.id ≤ b.id) :=
    ⟨fun _ _ _ hab hbc => Nat.le_trans hab hbc⟩
  refine ⟨?_, List.perm_insertionSort _ configs, ?_⟩
  · exact List.sorted_insertionSort _ configs
  · intro c hsub hall
    have hpw : c.Pairwise (fun a b : SlackBotConfig => a.id ≤ b.id) :=
      List.pairwise_of_forall_mem_list hall
    exact List.sublist_insertionSort hpw hsub

/-- C6 witness: the guarantees instantiated on the three demo configs
(ids 2, 1, 1), together with the evaluated output showing the two id-1
records keeping their input order ahead of the id-2 record. -/
theorem C6_sort_witness :
    ((sortById demoConfigs).Pairwise (fun a b => a.id ≤ b.id) ∧
    (sortById demoConfigs).Perm demoConfigs ∧
    ∀ c : List SlackBotConfig, c.Sublist demoConfigs → (∀ a ∈ c, ∀ b ∈ c, a.id ≤ b.id) →
      c.Sublist (sortById demoConfigs)) ∧
    sortById demoConfigs
      = [ { mkBotConfig 1 with document_sets := ["a"] },
          { mkBotConfig 1 with document_sets := ["b"] },
          { mkBotConfig 2 with document_sets := ["c"] } ] :=
  ⟨C6_sort demoConfigs, by decide⟩

/-! ### C7: error popups carry the HTTP status -/

/-- String concatenation concatenates the character lists. -/
theorem string_toList_append (s t : String) :
    (s ++ t).toList = s.toList ++ t.toList :=
  String.data_append s t

/-- A character list built as `pre ++ s` contains `s` as a substring. -/
theorem listContains_append_right (pre s : List Char) :
    listContains (pre ++ s) s = true := by
  unfold listContains
  rw [List.any_eq_true]
  refine ⟨pre.length, ?_, ?_⟩
  · rw [List.mem_range, List.length_append]
    omega
  · rw [List.drop_left, List.isPrefixOf_iff_prefix]

/-- C7 counterexample: the bot-config delete popup for a 500 response
with body "oops". Its error text is built from the response body, and
the status code 500 does not occur in it, contradicting the claimed
convention for this cited mutation path. -/
theorem C7_counterexample :
    ({ status := 500, body := "oops" } : JsResponse).ok = false ∧
    (botDeleteConfigPopup (mkBotConfig 12) { status := 500, body := "oops" }).message
      = "Failed to delete Slack bot config - oops" ∧
    listContains
      (botDeleteConfigPopup (mkBotConfig 12) { status := 500, body := "oops" }).message.toList
      (toString (500 : Nat)).toList = false := by
  decide

/-- C7 (amended): for every non-2xx response, the upload, connector
creation and link failure messages contain the numeric HTTP status as a
substring (convention "Failed to X - status"), while the bot-config
delete failure message is "Failed to delete Slack bot config - " followed
by the response body text, not the status code. -/
theorem C7_amended (response : JsResponse) (config : SlackBotConfig)
    (h : response.ok = false) :
    listContains (appCredentialUploadPopup response).message.toList
      (toString response.status).toList = true ∧
    listContains (createConnectorErrorMessage response).toList
      (toString response.status).toList = true ∧
    listContains (linkConnectorErrorMessage response).toList
      (toString response.status).toList = true ∧
    (botDeleteConfigPopup config response).message
      = "Failed to delete Slack bot config - " ++ response.body := by
  refine ⟨?_, ?_, ?_, ?_⟩
  · unfold appCredentialUploadPopup
    rw [if_neg (by simp [h])]
    rw [show ("Failed to upload app credentials - " ++ toString response.status).toList
          = "Failed to upload app credentials - ".toList ++ (toString response.status).toList
        from string_toList_append _ _]
    exact listContains_append_right _ _
  · unfold createConnectorErrorMessage
    rw [string_toList_append]
    exact listContains_append_right _ _
  · unfold linkConnectorErrorMessage
    rw [string_toList_append]
    exact listContains_append_right _ _
  · unfold botDeleteConfigPopup
    rw [if_neg (by simp [h])]

/-- C7 amended witness: the amended theorem at the 500 response with
body "x" and the bot config with id 12. -/
theorem C7_amended_witness :
    ({ status := 500, body := "x" } : JsResponse).ok = false ∧
    (listContains (appCredentialUploadPopup { status := 500, body := "x" }).message.toList
      (toString ({ status := 500, body := "x" } : JsResponse).status).toList = true ∧
    listContains (createConnectorErrorMessage { status := 500, body := "x" }).toList
      (toString ({ status := 500, body := "x" } : JsResponse).status).toList = true ∧
    listContains (linkConnectorErrorMessage { status := 500, body := "x" }).toList
      (toString ({ status := 500, body := "x" } : JsResponse).status).toList = true ∧
    (botDeleteConfigPopup (mkBotConfig 12) { status := 500, body := "x" }).message
      = "Failed to delete Slack bot config - " ++ ({ status := 500, body := "x" } : JsResponse).body) :=
  ⟨by decide, C7_amended { status := 500, body := "x" } (mkBotConfig 12) (by decide)⟩

/-! ### C8: no cache invalidation on failed mutations -/

/-- C8 counterexample: the bot-config delete with a failing (500)
response sets the error popup and still calls `refresh()`, signalling
invalidation of the bot-config collection in the failure path. -/
theorem C8_counterexample :
    ({ status := 500, body := "oops" } : JsResponse).ok = false ∧
    (botDeleteConfigClick (mkBotConfig 12) { status := 500, body := "oops" }).popup.type
      = "error" ∧
    (botDeleteConfigClick (mkBotConfig 12) { status := 500, body := "oops" }).refreshCalled
      = true := by
  decide

/-- C8 (amended): on the Google Drive add-connector flow, a failed
creation or a failed link sets an error popup and signals no cache
invalidation, and only the all-success path mutates the indexing-status
key; the bot-config delete, by contrast, signals `refresh()` regardless
of the outcome of the DELETE. -/
theorem C8_amended (createResponse linkResponse response : JsResponse)
    (config : SlackBotConfig) :
    (createResponse.ok = false →
      (gdriveAddConnectorClick createResponse linkResponse).mutates = [] ∧
      (gdriveAddConnectorClick createResponse linkResponse).popup.isSome = true) ∧
    (linkResponse.ok = false →
      (gdriveAddConnectorClick createResponse linkResponse).mutates = []) ∧
    (createResponse.ok = true → linkResponse.ok = true →
      (gdriveAddConnectorClick createResponse linkResponse).mutates
        = ["/api/admin/connector/indexing-status"]) ∧
    (botDeleteConfigClick config response).refreshCalled = true := by
  unfold gdriveAddConnectorClick botDeleteConfigClick
  rcases hc : createResponse.ok with _ | _
  · simp [hc]
  · rcases hl : linkResponse.ok with _ | _
    · simp [hc, hl]
    · simp [hc, hl]

/-- C8 amended witness: the amended theorem at a failing create
response, a failing link response, a failing delete response and the
bot config with id 12, with both implications discharged. -/
theorem C8_amended_witness :
    (gdriveAddConnectorClick { status := 500, body := "e" } { status := 502, body := "e" }).mutates
      = [] ∧
    (gdriveAddConnectorClick { status := 200, body := "" } { status := 502, body := "e" }).mutates
      = [] ∧
    (botDeleteConfigClick (mkBotConfig 12) { status := 500, body := "oops" }).refreshCalled
      = true := by
  refine ⟨?_, ?_, ?_⟩
  · exact (C8_amended { status := 500, body := "e" } { status := 502, body := "e" }
      { status := 500, body := "oops" } (mkBotConfig 12)).1 (by decide) |>.1
  · exact (C8_amended { status := 200, body := "" } { status := 502, body := "e" }
      { status := 500, body := "oops" } (mkBotConfig 12)).2.1 (by decide)
  · exact (C8_amended { status := 200, body := "" } { status := 502, body := "e" }
      { status := 500, body := "oops" } (mkBotConfig 12)).2.2.2

/-! ### C9: popup auto-expiry after 4000 ms -/

/-- C9: after `setPopupWithExpiration` sets a popup, the pending clear
timer has delay exactly 4000 ms; with no further interaction the popup
is still visible strictly before 4000 ms have elapsed and is cleared at
and after 4000 ms. -/
theorem C9_popup_expiry (popupSpec : Option PopupSpec) (elapsedMs : Nat) :
    (setPopupWithExpiration popupSpec).pendingClearDelaysMs = [4000] ∧
    popupAfter (setPopupWithExpiration popupSpec) elapsedMs
      = (if elapsedMs < 4000 then popupSpec else none) ∧
    popupAfter (setPopupWithExpiration popupSpec) 4000 = none := by
  refine ⟨rfl, ?_, rfl⟩
  unfold popupAfter setPopupWithExpiration
  by_cases h : elapsedMs < 4000
  · have h2 : ¬ (4000 ≤ elapsedMs) := by omega
    simp [h, h2]
  · have h2 : 4000 ≤ elapsedMs := by omega
    simp [h, h2]

/-- C9 witness: the theorem at the guard-error popup, observed 3999 ms
and (via the last clause) 4000 ms after it was set. -/
theorem C9_popup_expiry_witness :
    (setPopupWithExpiration (some { message := "Must delete all connectors before deleting credentials", type := "error" })).pendingClearDelaysMs = [4000] ∧
    popupAfter (setPopupWithExpiration (some { message := "Must delete all connectors before deleting credentials", type := "error" })) 3999
      = (if 3999 < 4000 then some { message := "Must delete all connectors before deleting credentials", type := "error" } else none) ∧
    popupAfter (setPopupWithExpiration (some { message := "Must delete all connectors before deleting credentials", type := "error" })) 4000 = none :=
  C9_popup_expiry (some { message := "Must delete all connectors before deleting credentials", type := "error" }) 3999

/-! ### C10: getSourceMetadata partiality -/

/-- C10: `getSourceMetadata` succeeds on exactly the four source types
web, slack, google_drive and github, and throws Error("Invalid source
type") on every other input, in particular on notion and on confluence —
the latter being offered by the SourceSelector filter list; the throw
propagates through `getSourceIcon` and `getSourceDisplayName`. -/
theorem C10_getSourceMetadata :
    (∀ s ∈ (["web", "slack", "google_drive", "github"] : List String),
      ∃ m, getSourceMetadata s = Except.ok m) ∧
    (∀ s : String, s ∉ (["web", "slack", "google_drive", "github"] : List String) →
      getSourceMetadata s = Except.error "Invalid source type") ∧
    getSourceMetadata "notion" = Except.error "Invalid source type" ∧
    getSourceMetadata "confluence" = Except.error "Invalid source type" ∧
    "confluence" ∈ sourceSelectorInternalNames ∧
    (∀ s : String, s ∉ (["web", "slack", "google_drive", "github"] : List String) →
      getSourceIcon s = Except.error "Invalid source type" ∧
      getSourceDisplayName s = Except.error "Invalid source type") := by
  have herr : ∀ s : String, s ∉ (["web", "slack", "google_drive", "github"] : List String) →
      getSourceMetadata s = Except.error "Invalid source type" := by
    intro s hs
    simp only [List.mem_cons, List.mem_singleton, not_or] at hs
    obtain ⟨h1, h2, h3, h4⟩ := hs
    unfold getSourceMetadata
    rw [if_neg h1, if_neg h2, if_neg h3, if_neg (by simpa using h4)]
  refine ⟨?_, herr, by rfl, by rfl, by decide, ?_⟩
  · intro s hs
    simp only [List.mem_cons, List.not_mem_nil, or_false] at hs
    rcases hs with rfl | rfl | rfl | rfl
    · exact ⟨_, rfl⟩
    · exact ⟨_, rfl⟩
    · exact ⟨_, rfl⟩
    · exact ⟨_, rfl⟩
  · intro s hs
    unfold getSourceIcon getSourceDisplayName
    rw [herr s hs]
    exact ⟨rfl, rfl⟩

/-- C10 witness: the theorem instantiated at "slack" (a valid source)
and "bookstack" (an invalid one), with the membership hypotheses
discharged concretely. -/
theorem C10_getSourceMetadata_witness :
    (∃ m, getSourceMetadata "slack" = Except.ok m) ∧
    getSourceMetadata "bookstack" = Except.error "Invalid source type" ∧
    getSourceIcon "bookstack" = Except.error "Invalid source type" := by
  obtain ⟨hok, herr, _, _, _, hmap⟩ := C10_getSourceMetadata
  exact ⟨hok "slack" (by decide), herr "bookstack" (by decide),
    (hmap "bookstack" (by decide)).1⟩
